import Mathlib

/-!
Shallow embedding of the `apns-server` HTTP relay (src/index.ts):
an Express app with a bearer-secret middleware, a push dispatcher
(`POST /send-apn`) built on a retry-once wrapper `safeSend` around the
APNs client, and an email dispatcher (`POST /send-email`).

External effects (the APNs client's `send`, `fs.readFileSync`,
`handlebars` rendering, `nodemailer`'s `sendMail`) are parameters of the
embedded handlers; each handler additionally returns the trace of calls
it made to those collaborators, so that claims about "no send attempted"
or "exactly N delivery calls" are statable.
-/

namespace ApnsSrv

/-- A JavaScript error value as inspected by `safeSend`:
optional `code` and optional `message` properties. -/
structure JsErr where
  code : Option String
  message : Option String
deriving DecidableEq, Repr

/-- JS `s.includes(pat)` for a non-empty pattern, via `splitOn`. -/
def strIncludes (s pat : String) : Bool :=
  2 ≤ (s.splitOn pat).length

/-- The transient-error classification in `safeSend`'s catch block:
`err.code === "UND_ERR_SOCKET" || err.message?.includes("socket")`. -/
def isTransient (e : JsErr) : Bool :=
  e.code == some "UND_ERR_SOCKET" ||
    (match e.message with
     | some m => strIncludes m "socket"
     | none => false)

/-- One attempt of `apnClient.send`: either resolves (`ok`) or rejects
with a JS error. The `Nat` argument of a send script indexes the attempt
(0 = first attempt, 1 = the retry, ...). -/
abbrev SendScript := Nat → Except JsErr Unit

/-- `safeSend(notification, retries)` from src/index.ts, embedded over an
attempt script. Returns the value the caller observes (the `try/catch`
swallows every failure, so it is always `ok`) together with the total
number of `apnClient.send` attempts performed. `attemptIdx` is the index
of the next attempt in the script. -/
def safeSendRun (send : SendScript) (attemptIdx retries : Nat) :
    Except JsErr Unit × Nat :=
  match send attemptIdx with
  | Except.ok _ => (Except.ok (), 1)
  | Except.error e =>
    match retries with
    | 0 => (Except.ok (), 1)
    | r + 1 =>
      if isTransient e then
        let p := safeSendRun send (attemptIdx + 1) r
        (p.1, p.2 + 1)
      else
        (Except.ok (), 1)

/-- `safeSend(notification)` with the default `retries = 1`. -/
def safeSend (send : SendScript) : Except JsErr Unit × Nat :=
  safeSendRun send 0 1

/-- The caller of `safeSend` always observes a normal return, for any
retry budget and starting attempt. -/
theorem safeSendRun_ok (send : SendScript) (attemptIdx retries : Nat) :
    (safeSendRun send attemptIdx retries).1 = Except.ok () := by
  induction retries generalizing attemptIdx with
  | zero =>
    unfold safeSendRun
    cases send attemptIdx <;> simp
  | succ r ih =>
    unfold safeSendRun
    cases send attemptIdx with
    | ok _ => simp
    | error e =>
      by_cases h : isTransient e = true <;> simp [h, ih]

/-- The number of attempts is at least 1 and at most `retries + 1`. -/
theorem safeSendRun_attempts (send : SendScript) (attemptIdx retries : Nat) :
    1 ≤ (safeSendRun send attemptIdx retries).2 ∧
      (safeSendRun send attemptIdx retries).2 ≤ retries + 1 := by
  induction retries generalizing attemptIdx with
  | zero =>
    unfold safeSendRun
    cases send attemptIdx <;> simp
  | succ r ih =>
    unfold safeSendRun
    cases send attemptIdx with
    | ok _ => simp
    | error e =>
      by_cases h : isTransient e = true
      · simp only [h, if_pos]
        have := ih (attemptIdx + 1)
        omega
      · simp [h]

/-- **C1.** `safeSend` attempt counts: (a) first attempt fails with a
transient error and the second succeeds: exactly 2 attempts, normal
return; (b) every attempt fails with a transient error: exactly 2
attempts (1 original + 1 retry), failure swallowed; (c) first attempt
fails with a non-transient error: exactly 1 attempt. -/
theorem safeSend_retry_counts (send : SendScript) :
    (∀ e : JsErr, send 0 = Except.error e → isTransient e = true →
      send 1 = Except.ok () → safeSend send = (Except.ok (), 2)) ∧
    (∀ f : Nat → JsErr, (∀ n, send n = Except.error (f n)) →
      (∀ n, isTransient (f n) = true) → safeSend send = (Except.ok (), 2)) ∧
    (∀ e : JsErr, send 0 = Except.error e → isTransient e = false →
      safeSend send = (Except.ok (), 1)) := by
  refine ⟨?_, ?_, ?_⟩
  · intro e h0 ht h1
    simp [safeSend, safeSendRun, h0, ht, h1]
  · intro f hf ht
    simp [safeSend, safeSendRun, hf 0, hf 1, ht 0]
  · intro e h0 ht
    simp [safeSend, safeSendRun, h0, ht]

/-- A concrete attempt script: the first attempt rejects with the socket
error code, every later attempt resolves. -/
def sendScriptRetryOk : SendScript := fun n =>
  if n = 0 then Except.error ⟨some "UND_ERR_SOCKET", none⟩ else Except.ok ()

/-- Witness for C1 at a concrete script: fail-transient-then-succeed
gives exactly 2 attempts and a normal return. -/
theorem safeSend_retry_counts_witness :
    safeSend sendScriptRetryOk = (Except.ok (), 2) :=
  (safeSend_retry_counts sendScriptRetryOk).1
    ⟨some "UND_ERR_SOCKET", none⟩ rfl (by decide) rfl

/-- **C2.** For every notification and every sequence of send outcomes,
`safeSend` never propagates an error to its caller, and makes between 1
and 2 attempts in total. -/
theorem safeSend_never_throws (send : SendScript) :
    (safeSend send).1 = Except.ok () ∧
      1 ≤ (safeSend send).2 ∧ (safeSend send).2 ≤ 2 :=
  ⟨safeSendRun_ok send 0 1,
   (safeSendRun_attempts send 0 1).1,
   (safeSendRun_attempts send 0 1).2⟩

/-- The optional `payload` field of a push request: `{ title?, body? }`. -/
structure PushPayload where
  title : Option String
  body : Option String
deriving DecidableEq, Repr

/-- The alert object `{ title, body }` placed under `aps.alert`. -/
structure ApsAlert where
  title : String
  body : String
deriving DecidableEq, Repr

/-- The notification object constructed per token in `POST /send-apn`:
the fields that the two `new Notification(...)` calls set. -/
structure Notification where
  token : String
  contentAvailable : Option Nat
  alert : Option ApsAlert
  sound : Option String
  pushType : Option String
  topic : Option String
deriving DecidableEq, Repr

/-- The per-token `if (type === "silent") ... else ...` notification
construction in `POST /send-apn` (src/index.ts lines 67-91). -/
def buildNotification (bundleId : Option String) (ptype : Option String)
    (payload : Option PushPayload) (token : String) : Notification :=
  if ptype = some "silent" then
    { token := token
      contentAvailable := some 1
      alert := none
      sound := none
      pushType := some "background"
      topic := bundleId }
  else
    { token := token
      contentAvailable := none
      alert := some
        { title := (payload.bind PushPayload.title).getD "Coordiy Update"
          body := (payload.bind PushPayload.body).getD "Event changed" }
      sound := some "default"
      pushType := none
      topic := bundleId }

/-- **C4.** Per token: `type == "silent"` yields the background variant
(content-available 1, no alert text); any other `type` yields the alert
variant with title defaulting to "Coordiy Update", body defaulting to
"Event changed", and sound "default". Exactly one of the two variants is
produced, chosen solely by `type`. -/
theorem buildNotification_variants (bundleId ptype : Option String)
    (payload : Option PushPayload) (token : String) :
    (ptype = some "silent" →
      (buildNotification bundleId ptype payload token).contentAvailable = some 1 ∧
      (buildNotification bundleId ptype payload token).alert = none) ∧
    (ptype ≠ some "silent" →
      (buildNotification bundleId ptype payload token).contentAvailable = none ∧
      (buildNotification bundleId ptype payload token).sound = some "default" ∧
      ∃ a : ApsAlert,
        (buildNotification bundleId ptype payload token).alert = some a ∧
        (payload.bind PushPayload.title = none → a.title = "Coordiy Update") ∧
        (∀ s, payload.bind PushPayload.title = some s → a.title = s) ∧
        (payload.bind PushPayload.body = none → a.body = "Event changed") ∧
        (∀ s, payload.bind PushPayload.body = some s → a.body = s)) ∧
    ¬((buildNotification bundleId ptype payload token).contentAvailable = some 1 ∧
      (buildNotification bundleId ptype payload token).alert = none ↔
      (buildNotification bundleId ptype payload token).alert ≠ none) := by
  by_cases h : ptype = some "silent"
  · refine ⟨fun _ => ?_, fun hne => absurd h hne, fun hiff => ?_⟩
    · simp [buildNotification, h]
    · simp [buildNotification, h] at hiff
  · refine ⟨fun hs => absurd hs h, fun _ => ?_, fun hiff => ?_⟩
    · refine ⟨?_, ?_,
        ⟨(payload.bind PushPayload.title).getD "Coordiy Update",
          (payload.bind PushPayload.body).getD "Event changed"⟩, ?_, ?_, ?_, ?_, ?_⟩
      · simp [buildNotification, h]
      · simp [buildNotification, h]
      · simp [buildNotification, h]
      · intro ht; simp [ht]
      · intro s hs; simp [hs]
      · intro hb; simp [hb]
      · intro s hs; simp [hs]
    · simp [buildNotification, h] at hiff

/-- Witness for C4 at concrete inputs: the silent branch at
`type = "silent"` produces the background marker and no alert. -/
theorem buildNotification_variants_witness :
    (buildNotification (some "com.example") (some "silent") none "tok").contentAvailable
        = some 1 ∧
      (buildNotification (some "com.example") (some "silent") none "tok").alert = none :=
  (buildNotification_variants (some "com.example") (some "silent") none "tok").1 rfl

/-- A JSON response body: either a success object (optionally with a
`duration` field) or an error object `{ error: msg }`. -/
inductive RespBody where
  | success (duration : Option String)
  | failure (msg : String)
deriving DecidableEq, Repr

/-- An HTTP response: status code and JSON body. -/
structure Response where
  status : Nat
  body : RespBody
deriving DecidableEq, Repr

/-- The body of a `POST /send-apn` request:
`{ tokens: string[], payload?: { title?, body? }, type }`.
`tokens = none` models an absent field. -/
structure PushRequest where
  tokens : Option (List String)
  payload : Option PushPayload
  type : Option String
deriving DecidableEq, Repr

/-- One call to `safeSend` issued by the push dispatcher: the
notification passed in and the (result, attempt-count) pair of the run. -/
structure DeliveryCall where
  notif : Notification
  result : Except JsErr Unit × Nat
deriving Repr

/-- The `POST /send-apn` handler (src/index.ts lines 55-101), embedded
over a per-token outcome matrix `outcomes` (token position ↦ attempt
script) and the measured `elapsed` duration string. Returns the HTTP
response together with the list of `safeSend` delivery calls issued.
The `Promise.all` rejects only if some `safeSend` call rejects, in which
case the `catch` answers 500 with that error's message. -/
def handleSendApn (bundleId : Option String) (elapsed : String)
    (outcomes : Nat → SendScript) (req : PushRequest) :
    Response × List DeliveryCall :=
  match req.tokens with
  | none => (⟨500, RespBody.failure "Missing tokens"⟩, [])
  | some toks =>
    if toks.isEmpty then
      (⟨500, RespBody.failure "Missing tokens"⟩, [])
    else
      let calls := toks.enum.map fun p =>
        { notif := buildNotification bundleId req.type req.payload p.2
          result := safeSend (outcomes p.1) : DeliveryCall }
      match calls.filterMap
          (fun c => match c.result.1 with
            | Except.error e => some e
            | Except.ok _ => none) with
      | [] => (⟨200, RespBody.success (some elapsed)⟩, calls)
      | e :: _ => (⟨500, RespBody.failure (e.message.getD "undefined")⟩, calls)

/-- No delivery call ever surfaces a rejection to `Promise.all`. -/
theorem handleSendApn_no_rejection (outcomes : Nat → SendScript)
    (calls : List DeliveryCall)
    (h : ∀ c ∈ calls, ∃ i, c.result = safeSend (outcomes i)) :
    calls.filterMap
        (fun c => match c.result.1 with
          | Except.error e => some e
          | Except.ok _ => none) = [] := by
  rw [List.filterMap_eq_nil_iff]
  intro c hc
  obtain ⟨i, hi⟩ := h c hc
  have hok : c.result.1 = Except.ok () := by
    rw [hi]; exact safeSendRun_ok (outcomes i) 0 1
  rw [hok]

/-- The notifications of the delivery calls are exactly the per-token
constructed notifications, in token order. -/
theorem map_notif_enumFrom (bundleId ptype : Option String)
    (payload : Option PushPayload) (outcomes : Nat → SendScript)
    (n : Nat) (toks : List String) :
    (((toks.enumFrom n).map fun p =>
        { notif := buildNotification bundleId ptype payload p.2
          result := safeSend (outcomes p.1) : DeliveryCall }).map
      DeliveryCall.notif) = toks.map (buildNotification bundleId ptype payload) := by
  induction toks generalizing n with
  | nil => rfl
  | cons a l ih => simp [List.enumFrom, ih]

/-- **C5.** For a push request with a non-empty token list of length N,
exactly N delivery calls are issued (one per token, in order), and the
response is 200 `{ success: true, duration }` regardless of the
per-token delivery outcomes. -/
theorem handleSendApn_success (bundleId : Option String) (elapsed : String)
    (outcomes : Nat → SendScript) (payload : Option PushPayload)
    (ptype : Option String) (toks : List String) (hne : toks ≠ []) :
    (handleSendApn bundleId elapsed outcomes ⟨some toks, payload, ptype⟩).1
        = ⟨200, RespBody.success (some elapsed)⟩ ∧
      (handleSendApn bundleId elapsed outcomes ⟨some toks, payload, ptype⟩).2.length
        = toks.length ∧
      (handleSendApn bundleId elapsed outcomes ⟨some toks, payload, ptype⟩).2.map
          DeliveryCall.notif
        = toks.map (buildNotification bundleId ptype payload) := by
  have hno : (toks.enum.map fun p =>
      { notif := buildNotification bundleId ptype payload p.2
        result := safeSend (outcomes p.1) : DeliveryCall }).filterMap
        (fun c => match c.result.1 with
          | Except.error e => some e
          | Except.ok _ => none) = [] := by
    apply handleSendApn_no_rejection outcomes
    intro c hc
    obtain ⟨p, _, hp⟩ := List.mem_map.1 hc
    exact ⟨p.1, by rw [← hp]⟩
  have hemp : toks.isEmpty = false := by
    cases toks with
    | nil => exact absurd rfl hne
    | cons a l => rfl
  constructor
  · simp only [handleSendApn, hemp, Bool.false_eq_true, if_neg, not_false_iff, hno]
  constructor
  · simp only [handleSendApn, hemp, Bool.false_eq_true, if_neg, not_false_iff, hno,
      List.length_map, List.enum_length]
  · simp only [handleSendApn, hemp, Bool.false_eq_true, if_neg, not_false_iff, hno]
    exact map_notif_enumFrom bundleId ptype payload outcomes 0 toks

/-- Witness for C5 at a concrete request: two tokens whose deliveries
all fail terminally still produce a 200 response and 2 delivery calls. -/
theorem handleSendApn_success_witness :
    (handleSendApn (some "com.example") "0.10"
        (fun _ _ => Except.error ⟨none, some "bad device token"⟩)
        ⟨some ["tokA", "tokB"], none, some "silent"⟩).1
      = ⟨200, RespBody.success (some "0.10")⟩ ∧
    (handleSendApn (some "com.example") "0.10"
        (fun _ _ => Except.error ⟨none, some "bad device token"⟩)
        ⟨some ["tokA", "tokB"], none, some "silent"⟩).2.length = 2 := by
  have h := handleSendApn_success (some "com.example") "0.10"
    (fun _ _ => Except.error ⟨none, some "bad device token"⟩)
    none (some "silent") ["tokA", "tokB"] (by decide)
  exact ⟨h.1, h.2.1⟩

/-- **C6.** For a push request whose `tokens` field is missing or an
empty list, the response is 500 with an error message and no
notification is constructed, no delivery attempted. -/
theorem handleSendApn_missing_tokens (bundleId : Option String)
    (elapsed : String) (outcomes : Nat → SendScript) (req : PushRequest)
    (h : req.tokens = none ∨ req.tokens = some []) :
    handleSendApn bundleId elapsed outcomes req
      = (⟨500, RespBody.failure "Missing tokens"⟩, []) := by
  rcases h with h | h <;> simp [handleSendApn, h]

/-- Witness for C6: the empty token list yields 500 and no deliveries. -/
theorem handleSendApn_missing_tokens_witness :
    handleSendApn none "0.00" (fun _ _ => Except.ok ())
        ⟨some [], none, none⟩
      = (⟨500, RespBody.failure "Missing tokens"⟩, []) :=
  handleSendApn_missing_tokens none "0.00" (fun _ _ => Except.ok ())
    ⟨some [], none, none⟩ (Or.inr rfl)

/-- JS truthiness of a string-or-absent field: absent (`undefined`) and
the empty string are falsy, every other string is truthy. -/
def truthy : Option String → Bool
  | none => false
  | some s => !s.isEmpty

/-- JS string coercion inside a template literal: `undefined` prints as
the string "undefined". -/
def jsStr : Option String → String
  | none => "undefined"
  | some s => s

/-- The empty string is falsy. -/
theorem truthy_some_empty : truthy (some "") = false := rfl

/-- The calendar URL built in `POST /send-email`:
`https://coordy-prod.vercel.app/api/calendar/<eventId>.ics`. -/
def icalUrl (eventId : String) : String :=
  "https://coordy-prod.vercel.app/api/calendar/" ++ eventId ++ ".ics"

/-- The body of a `POST /send-email` request. `none` models an absent
field. -/
structure EmailRequest where
  toAddr : Option String
  template : Option String
  subject : Option String
  user : Option String
  pass : Option String
  eventTitle : Option String
  eventDate : Option String
  eventTime : Option String
  eventLocation : Option String
  eventId : Option String
deriving DecidableEq, Repr

/-- The named variables passed to the compiled handlebars template. -/
structure TemplateVars where
  username : Option String
  eventTitle : Option String
  eventDate : Option String
  eventTime : Option String
  eventLocation : Option String
  appName : String
  supportEmail : Option String
  icalLink : String
deriving DecidableEq, Repr

/-- An attachment object pushed onto `attachments`. -/
structure Attachment where
  filename : String
  path : String
  contentType : String
deriving DecidableEq, Repr

/-- The argument of `transporter.sendMail`. (`from` is a Lean keyword,
so the `from` field is called `fromAddr`; likewise `to` is a Lean
token, so the `to` fields here and in `EmailRequest` are `toAddr`.) -/
structure Mail where
  fromAddr : Option String
  toAddr : Option String
  subject : Option String
  html : String
  attachments : List Attachment
deriving DecidableEq, Repr

/-- The result of one run of the email handler: the HTTP response and
the trace of external calls (template paths read, variable sets passed
to the template renderer, mails passed to `sendMail`). -/
structure EmailTrace where
  resp : Response
  reads : List String
  rendered : List TemplateVars
  sent : List Mail
deriving DecidableEq, Repr

/-- `path.join(process.cwd(), templates/<template>)`. -/
def emailTemplatePath (cwd : String) (req : EmailRequest) : String :=
  cwd ++ "/templates/" ++ jsStr req.template

/-- The `icalLink` template variable:
`eventId ? https://coordy-prod.vercel.app/api/calendar/<eventId>.ics : ""`. -/
def emailIcalLink (req : EmailRequest) : String :=
  if truthy req.eventId then icalUrl (jsStr req.eventId) else ""

/-- The variable set passed to the compiled template. -/
def emailVars (req : EmailRequest) : TemplateVars :=
  { username := req.toAddr
    eventTitle := req.eventTitle
    eventDate := req.eventDate
    eventTime := req.eventTime
    eventLocation := req.eventLocation
    appName := "Cordy"
    supportEmail := req.user
    icalLink := emailIcalLink req }

/-- The `attachments` array: one calendar reference when `eventId` is
truthy, else empty. The filename is the template literal
`<eventTitle>.ics` (so an absent `eventTitle` prints as "undefined"). -/
def emailAttachments (req : EmailRequest) : List Attachment :=
  if truthy req.eventId then
    [{ filename := jsStr req.eventTitle ++ ".ics"
       path := icalUrl (jsStr req.eventId)
       contentType := "text/calendar; charset=UTF-8; method=REQUEST" }]
  else []

/-- The argument of `transporter.sendMail`. -/
def emailMail (render : String → TemplateVars → String) (file : String)
    (req : EmailRequest) : Mail :=
  { fromAddr := req.user
    toAddr := req.toAddr
    subject := req.subject
    html := render file (emailVars req)
    attachments := emailAttachments req }

/-- The `POST /send-email` handler (src/index.ts lines 103-174),
embedded over the filesystem (`readFile`, which models
`fs.readFileSync` and may fail with an error message), the handlebars
renderer (`render`, a black box from template text and variables to
html), and the SMTP send (`sendMail`, failing with an error message or
resolving with a message id). -/
def handleSendEmail (cwd : String) (readFile : String → Except String String)
    (render : String → TemplateVars → String)
    (sendMail : Mail → Except String String) (req : EmailRequest) :
    EmailTrace :=
  if !truthy req.toAddr || !truthy req.template || !truthy req.subject then
    ⟨⟨400, RespBody.failure "Missing params"⟩, [], [], []⟩
  else
    match readFile (emailTemplatePath cwd req) with
    | Except.error msg =>
      ⟨⟨500, RespBody.failure msg⟩, [emailTemplatePath cwd req], [], []⟩
    | Except.ok file =>
      match sendMail (emailMail render file req) with
      | Except.error msg =>
        ⟨⟨500, RespBody.failure msg⟩, [emailTemplatePath cwd req],
          [emailVars req], [emailMail render file req]⟩
      | Except.ok _ =>
        ⟨⟨200, RespBody.success none⟩, [emailTemplatePath cwd req],
          [emailVars req], [emailMail render file req]⟩

/-- **C7.** An email request missing any of `to`, `template`, `subject`
is answered 400 `{ error: "Missing params" }` with zero template reads
and zero send attempts. -/
theorem handleSendEmail_missing_params (cwd : String)
    (readFile : String → Except String String)
    (render : String → TemplateVars → String)
    (sendMail : Mail → Except String String) (req : EmailRequest)
    (h : req.toAddr = none ∨ req.template = none ∨ req.subject = none) :
    handleSendEmail cwd readFile render sendMail req
      = ⟨⟨400, RespBody.failure "Missing params"⟩, [], [], []⟩ := by
  rcases h with h | h | h <;> simp [handleSendEmail, h, truthy]

/-- Witness for C7: a request with an absent `subject` is rejected with
no reads and no sends. -/
theorem handleSendEmail_missing_params_witness :
    handleSendEmail "/app" (fun _ => Except.ok "tpl") (fun _ _ => "html")
        (fun _ => Except.ok "id")
        ⟨some "a@b.c", some "welcome.html", none, some "u@g.c", some "pw",
          none, none, none, none, none⟩
      = ⟨⟨400, RespBody.failure "Missing params"⟩, [], [], []⟩ :=
  handleSendEmail_missing_params "/app" (fun _ => Except.ok "tpl")
    (fun _ _ => "html") (fun _ => Except.ok "id")
    ⟨some "a@b.c", some "welcome.html", none, some "u@g.c", some "pw",
      none, none, none, none, none⟩ (Or.inr (Or.inr rfl))

/-- **C10.** The missing-parameter check tests falsiness, not absence:
supplying `to`, `template` or `subject` as the empty string is rejected
with 400 `{ error: "Missing params" }` exactly as if absent. -/
theorem handleSendEmail_empty_string_params (cwd : String)
    (readFile : String → Except String String)
    (render : String → TemplateVars → String)
    (sendMail : Mail → Except String String) (req : EmailRequest)
    (h : req.toAddr = some "" ∨ req.template = some "" ∨ req.subject = some "") :
    handleSendEmail cwd readFile render sendMail req
      = ⟨⟨400, RespBody.failure "Missing params"⟩, [], [], []⟩ := by
  rcases h with h | h | h <;>
    simp [handleSendEmail, h, truthy_some_empty]

/-- Witness for C10: `to = ""` with the other fields present is
rejected exactly as if `to` were absent. -/
theorem handleSendEmail_empty_string_params_witness :
    handleSendEmail "/app" (fun _ => Except.ok "tpl") (fun _ _ => "html")
        (fun _ => Except.ok "id")
        ⟨some "", some "welcome.html", some "Hi", some "u@g.c", some "pw",
          none, none, none, none, none⟩
      = ⟨⟨400, RespBody.failure "Missing params"⟩, [], [], []⟩ :=
  handleSendEmail_empty_string_params "/app" (fun _ => Except.ok "tpl")
    (fun _ _ => "html") (fun _ => Except.ok "id")
    ⟨some "", some "welcome.html", some "Hi", some "u@g.c", some "pw",
      none, none, none, none, none⟩ (Or.inl rfl)

/-- Unfolding of the email handler on a valid request whose template
read succeeds: everything is determined by the outcome of `sendMail` on
the constructed mail. -/
theorem handleSendEmail_valid_read (cwd : String)
    (readFile : String → Except String String)
    (render : String → TemplateVars → String)
    (sendMail : Mail → Except String String) (req : EmailRequest)
    (hto : truthy req.toAddr = true) (htpl : truthy req.template = true)
    (hsub : truthy req.subject = true) (file : String)
    (hr : readFile (emailTemplatePath cwd req) = Except.ok file) :
    handleSendEmail cwd readFile render sendMail req
      = match sendMail (emailMail render file req) with
        | Except.error msg =>
          ⟨⟨500, RespBody.failure msg⟩, [emailTemplatePath cwd req],
            [emailVars req], [emailMail render file req]⟩
        | Except.ok _ =>
          ⟨⟨200, RespBody.success none⟩, [emailTemplatePath cwd req],
            [emailVars req], [emailMail render file req]⟩ := by
  simp [handleSendEmail, hto, htpl, hsub, hr]

/-- Unfolding of the email handler on a valid request whose template
read fails: 500 with the read error's message, nothing rendered or
sent. -/
theorem handleSendEmail_valid_read_fail (cwd : String)
    (readFile : String → Except String String)
    (render : String → TemplateVars → String)
    (sendMail : Mail → Except String String) (req : EmailRequest)
    (hto : truthy req.toAddr = true) (htpl : truthy req.template = true)
    (hsub : truthy req.subject = true) (msg : String)
    (hr : readFile (emailTemplatePath cwd req) = Except.error msg) :
    handleSendEmail cwd readFile render sendMail req
      = ⟨⟨500, RespBody.failure msg⟩, [emailTemplatePath cwd req], [], []⟩ := by
  simp [handleSendEmail, hto, htpl, hsub, hr]

/-- Counterexample to C8 as stated: a valid request that supplies
`eventId` as the empty string. The send succeeds (200) and exactly one
mail is sent, but it carries no attachment, although `eventId` was
supplied. The attachment condition is JS truthiness, not presence. -/
def reqEmptyEventId : EmailRequest :=
  { toAddr := some "a@b.c"
    template := some "welcome.html"
    subject := some "Hi"
    user := some "u@g.c"
    pass := some "pw"
    eventTitle := some "Party"
    eventDate := none
    eventTime := none
    eventLocation := none
    eventId := some "" }

/-- A template read that always succeeds with fixed template text. -/
def readOkTpl : String → Except String String := fun _ => Except.ok "tpl"

/-- A renderer that ignores its inputs. -/
def renderConst : String → TemplateVars → String := fun _ _ => "html"

/-- An SMTP send that always succeeds. -/
def sendMailOk : Mail → Except String String := fun _ => Except.ok "msgid"

/-- Counterexample to **C8** as stated: `eventId` is supplied (as the
empty string), the request is valid and the send succeeds, yet the one
mail sent has an empty attachment list instead of exactly one
calendar-reference attachment. -/
theorem handleSendEmail_supplied_eventId_cex :
    reqEmptyEventId.eventId.isSome = true ∧
      (handleSendEmail "/app" readOkTpl renderConst sendMailOk
          reqEmptyEventId).resp = ⟨200, RespBody.success none⟩ ∧
      (handleSendEmail "/app" readOkTpl renderConst sendMailOk
          reqEmptyEventId).sent.map Mail.attachments = [[]] :=
  ⟨rfl, rfl, rfl⟩

/-- **C8 (amended).** For every valid email request: if `eventId` is
supplied as a non-empty (truthy) string, exactly one calendar-reference
attachment is built, with URL derived deterministically from that
`eventId`; if `eventId` is omitted or empty, no attachment is added.
Any send or template-read failure yields a 500 with the underlying
error message; success yields a 200 with `{ success: true }`. -/
theorem handleSendEmail_attachment_and_status (cwd : String)
    (readFile : String → Except String String)
    (render : String → TemplateVars → String)
    (sendMail : Mail → Except String String) (req : EmailRequest)
    (hto : truthy req.toAddr = true) (htpl : truthy req.template = true)
    (hsub : truthy req.subject = true) :
    (∀ msg, readFile (emailTemplatePath cwd req) = Except.error msg →
      (handleSendEmail cwd readFile render sendMail req).resp
          = ⟨500, RespBody.failure msg⟩ ∧
        (handleSendEmail cwd readFile render sendMail req).sent = []) ∧
    (∀ file, readFile (emailTemplatePath cwd req) = Except.ok file →
      (handleSendEmail cwd readFile render sendMail req).sent
          = [emailMail render file req] ∧
      (truthy req.eventId = true →
        (emailMail render file req).attachments
          = [{ filename := jsStr req.eventTitle ++ ".ics"
               path := icalUrl (jsStr req.eventId)
               contentType := "text/calendar; charset=UTF-8; method=REQUEST" }]) ∧
      (truthy req.eventId = false →
        (emailMail render file req).attachments = []) ∧
      (∀ msg, sendMail (emailMail render file req) = Except.error msg →
        (handleSendEmail cwd readFile render sendMail req).resp
          = ⟨500, RespBody.failure msg⟩) ∧
      (∀ info, sendMail (emailMail render file req) = Except.ok info →
        (handleSendEmail cwd readFile render sendMail req).resp
          = ⟨200, RespBody.success none⟩)) := by
  constructor
  · intro msg hr
    rw [handleSendEmail_valid_read_fail cwd readFile render sendMail req
      hto htpl hsub msg hr]
    exact ⟨rfl, rfl⟩
  · intro file hr
    rw [handleSendEmail_valid_read cwd readFile render sendMail req
      hto htpl hsub file hr]
    cases hs : sendMail (emailMail render file req) with
    | error msg' =>
      refine ⟨rfl, ?_, ?_, ?_, ?_⟩
      · intro he; simp [emailMail, emailAttachments, he]
      · intro he; simp [emailMail, emailAttachments, he]
      · intro msg hmsg
        cases hmsg
        rfl
      · intro info hinfo
        cases hinfo
    | ok info' =>
      refine ⟨rfl, ?_, ?_, ?_, ?_⟩
      · intro he; simp [emailMail, emailAttachments, he]
      · intro he; simp [emailMail, emailAttachments, he]
      · intro msg hmsg
        cases hmsg
      · intro info hinfo
        rfl

/-- A valid request carrying a non-empty `eventId`. -/
def reqWithEvent : EmailRequest :=
  { toAddr := some "a@b.c"
    template := some "welcome.html"
    subject := some "Hi"
    user := some "u@g.c"
    pass := some "pw"
    eventTitle := some "Party"
    eventDate := none
    eventTime := none
    eventLocation := none
    eventId := some "ev42" }

/-- Witness for C8 (amended): on a valid request with `eventId` "ev42"
and a successful read and send, the response is 200 and the single sent
mail carries exactly the calendar attachment for "ev42". -/
theorem handleSendEmail_attachment_and_status_witness :
    (handleSendEmail "/app" readOkTpl renderConst sendMailOk
        reqWithEvent).resp = ⟨200, RespBody.success none⟩ ∧
      (handleSendEmail "/app" readOkTpl renderConst sendMailOk
          reqWithEvent).sent.map Mail.attachments
        = [[{ filename := "Party.ics"
              path := "https://coordy-prod.vercel.app/api/calendar/ev42.ics"
              contentType := "text/calendar; charset=UTF-8; method=REQUEST" }]] := by
  obtain ⟨hsent, hatt, _, _, hok⟩ :=
    (handleSendEmail_attachment_and_status "/app" readOkTpl renderConst
      sendMailOk reqWithEvent rfl rfl rfl).2 "tpl" rfl
  refine ⟨hok "msgid" rfl, ?_⟩
  rw [hsent, List.map_singleton, hatt rfl]
  rfl

/-- **C9.** Every attachment's `path` is the exact same URL as the
`icalLink` variable handed to the template renderer, namely
`https://coordy-prod.vercel.app/api/calendar/<eventId>.ics`; when
`eventId` is absent, `icalLink` renders as the empty string; the
attachment filename is the template literal `<eventTitle>.ics`, so an
absent `eventTitle` with a truthy `eventId` yields the single filename
"undefined.ics". -/
theorem handleSendEmail_icalLink_consistency (cwd : String)
    (readFile : String → Except String String)
    (render : String → TemplateVars → String)
    (sendMail : Mail → Except String String) (req : EmailRequest)
    (hto : truthy req.toAddr = true) (htpl : truthy req.template = true)
    (hsub : truthy req.subject = true) (file : String)
    (hr : readFile (emailTemplatePath cwd req) = Except.ok file) :
    (∀ v ∈ (handleSendEmail cwd readFile render sendMail req).rendered,
      ∀ m ∈ (handleSendEmail cwd readFile render sendMail req).sent,
        ∀ a ∈ m.attachments,
          a.path = v.icalLink ∧
          a.path = "https://coordy-prod.vercel.app/api/calendar/"
              ++ jsStr req.eventId ++ ".ics" ∧
          a.filename = jsStr req.eventTitle ++ ".ics") ∧
    (req.eventId = none →
      ∀ v ∈ (handleSendEmail cwd readFile render sendMail req).rendered,
        v.icalLink = "") ∧
    (req.eventTitle = none → truthy req.eventId = true →
      ∀ m ∈ (handleSendEmail cwd readFile render sendMail req).sent,
        m.attachments.map Attachment.filename = ["undefined.ics"]) := by
  rw [handleSendEmail_valid_read cwd readFile render sendMail req
    hto htpl hsub file hr]
  have hmain : ∀ v ∈ [emailVars req], ∀ m ∈ [emailMail render file req],
      ∀ a ∈ m.attachments,
        a.path = v.icalLink ∧
        a.path = "https://coordy-prod.vercel.app/api/calendar/"
            ++ jsStr req.eventId ++ ".ics" ∧
        a.filename = jsStr req.eventTitle ++ ".ics" := by
    intro v hv m hm a ha
    rw [List.mem_singleton] at hv hm
    subst hv hm
    simp only [emailMail, emailAttachments] at ha
    by_cases he : truthy req.eventId = true
    · rw [if_pos he, List.mem_singleton] at ha
      subst ha
      refine ⟨?_, rfl, rfl⟩
      simp [emailVars, emailIcalLink, he, icalUrl]
    · rw [if_neg he] at ha
      exact absurd ha (List.not_mem_nil a)
  have hnone : req.eventId = none →
      ∀ v ∈ [emailVars req], v.icalLink = "" := by
    intro he v hv
    rw [List.mem_singleton] at hv
    subst hv
    simp [emailVars, emailIcalLink, he, truthy]
  have htitle : req.eventTitle = none → truthy req.eventId = true →
      ∀ m ∈ [emailMail render file req],
        m.attachments.map Attachment.filename = ["undefined.ics"] := by
    intro ht he m hm
    rw [List.mem_singleton] at hm
    subst hm
    simp [emailMail, emailAttachments, he, ht, jsStr]
  cases hs : sendMail (emailMail render file req) with
  | error msg => exact ⟨hmain, hnone, htitle⟩
  | ok info => exact ⟨hmain, hnone, htitle⟩

/-- A valid request with `eventId` "ev42" and no `eventTitle`. -/
def reqNoTitle : EmailRequest :=
  { toAddr := some "a@b.c"
    template := some "welcome.html"
    subject := some "Hi"
    user := some "u@g.c"
    pass := some "pw"
    eventTitle := none
    eventDate := none
    eventTime := none
    eventLocation := none
    eventId := some "ev42" }

/-- Witness for C9: with `eventId` "ev42" and no `eventTitle`, the sent
mail's attachment filenames are exactly ["undefined.ics"], and its path
matches the rendered `icalLink`. -/
theorem handleSendEmail_icalLink_consistency_witness :
    (handleSendEmail "/app" readOkTpl renderConst sendMailOk
        reqNoTitle).sent.map
          (fun m => m.attachments.map Attachment.filename)
      = [["undefined.ics"]] := by
  have h := (handleSendEmail_icalLink_consistency "/app" readOkTpl
    renderConst sendMailOk reqNoTitle rfl rfl rfl "tpl" rfl).2.2 rfl rfl
  have hsent : (handleSendEmail "/app" readOkTpl renderConst sendMailOk
      reqNoTitle).sent = [emailMail renderConst "tpl" reqNoTitle] := rfl
  rw [hsent, List.map_singleton,
    h (emailMail renderConst "tpl" reqNoTitle)
      (hsent ▸ List.mem_singleton.mpr rfl)]

/-- The body of an inbound request, tagged by its route. -/
inductive ReqBody where
  | apn (req : PushRequest)
  | email (req : EmailRequest)

/-- The outward effects of handling one request: `safeSend` delivery
calls, template paths read, and mails sent. -/
structure AppEffects where
  pushCalls : List DeliveryCall
  templateReads : List String
  mails : List Mail
deriving Repr

/-- The whole app on one inbound request: the security middleware
(`app.use`, src/index.ts lines 15-22) compares the `Authorization`
header for exact equality with `Bearer <WORKER_SECRET>` and
short-circuits with 403 `{ error: "Forbidden" }` on mismatch; otherwise
the request reaches its route handler. -/
def handleRequest (secret : String) (auth : Option String)
    (bundleId : Option String) (elapsed : String)
    (outcomes : Nat → SendScript) (cwd : String)
    (readFile : String → Except String String)
    (render : String → TemplateVars → String)
    (sendMail : Mail → Except String String) (body : ReqBody) :
    Response × AppEffects :=
  if auth = some ("Bearer " ++ secret) then
    match body with
    | ReqBody.apn req =>
      let r := handleSendApn bundleId elapsed outcomes req
      (r.1, ⟨r.2, [], []⟩)
    | ReqBody.email req =>
      let t := handleSendEmail cwd readFile render sendMail req
      (t.resp, ⟨[], t.reads, t.sent⟩)
  else
    (⟨403, RespBody.failure "Forbidden"⟩, ⟨[], [], []⟩)

/-- **C3.** Any request (to either route) whose `Authorization` header
is not exactly `Bearer <secret>` is answered 403
`{ error: "Forbidden" }`, and no handler logic executes: no push
delivery, no template read, no mail send. -/
theorem handleRequest_forbidden (secret : String) (auth : Option String)
    (bundleId : Option String) (elapsed : String)
    (outcomes : Nat → SendScript) (cwd : String)
    (readFile : String → Except String String)
    (render : String → TemplateVars → String)
    (sendMail : Mail → Except String String) (body : ReqBody)
    (h : auth ≠ some ("Bearer " ++ secret)) :
    handleRequest secret auth bundleId elapsed outcomes cwd readFile
        render sendMail body
      = (⟨403, RespBody.failure "Forbidden"⟩, ⟨[], [], []⟩) := by
  simp [handleRequest, h]

/-- Witness for C3: an absent `Authorization` header on the push route
is rejected with 403 and empty effect trace. -/
theorem handleRequest_forbidden_witness :
    handleRequest "s3cret" none none "0.00" (fun _ _ => Except.ok ())
        "/app" readOkTpl renderConst sendMailOk
        (ReqBody.apn ⟨some ["tokA"], none, some "silent"⟩)
      = (⟨403, RespBody.failure "Forbidden"⟩, ⟨[], [], []⟩) :=
  handleRequest_forbidden "s3cret" none none "0.00" (fun _ _ => Except.ok ())
    "/app" readOkTpl renderConst sendMailOk
    (ReqBody.apn ⟨some ["tokA"], none, some "silent"⟩) (by decide)

end ApnsSrv
